import Mathlib

/-!
Verification of the ManyChat API client's request-execution pipeline.

Shallow embedding of:
  * `config.py`    — `ManyChatConfig` (pydantic settings model, no validators)
  * `client.py`    — `ManyChatClient.__init__` (rate-limit semaphore),
                     `start` (session headers), `_enforce_rate_limit`,
                     `_request` (status classification, body validation) and
                     the `backoff.on_exception` retry decorator around it
  * `api/_base.py` — `BaseRequest.to_api_format` (`dict(exclude_none=True)`)
  * the endpoint modules `getTags.py`, `addTagByName.py`, `getInfo.py`
    (each invokes the attribute `request` on the client object)

Python floats are modelled as exact rationals (`ℚ`); machine integers as `ℤ`.
Exceptions are modelled with `Except`; asynchronous effects (the event-loop
clock, `asyncio.sleep`) are modelled by explicit clock readings passed to the
state-transition functions.
-/

namespace ManyChat

/-! ## Configuration (`config.py`)

`ManyChatConfig` is a pydantic `BaseSettings` subclass.  Its fields carry the
defaults written in the source; the class declares **no** field validators and
does not set `frozen`, so pydantic only checks that required fields are
present and that values fit the annotated types. -/

structure ManyChatConfig where
  api_key : String
  api_version : String
  base_url : String
  timeout : Int
  max_retries : Int
  retry_delay : ℚ
  rate_limit : Int
  rate_window : Int
  log_level : String
  debug : Bool
  webhook_secret : Option String
  cache_ttl : Int
deriving DecidableEq, Repr

/-- The values supplied to `ManyChatConfig(...)` (from the environment or
keyword arguments); `none` means "not supplied, use the field default". -/
structure ManyChatConfigInput where
  api_key : Option String := none
  api_version : Option String := none
  base_url : Option String := none
  timeout : Option Int := none
  max_retries : Option Int := none
  retry_delay : Option ℚ := none
  rate_limit : Option Int := none
  rate_window : Option Int := none
  log_level : Option String := none
  debug : Option Bool := none
  webhook_secret : Option (Option String) := none
  cache_ttl : Option Int := none

/-- Construction of `ManyChatConfig`.  `api_key` is the only required field
(`Field(...)`); every other field has a default.  The class body contains no
validator, so pydantic performs no emptiness or positivity check: any typed
value is accepted. -/
def mkManyChatConfig (i : ManyChatConfigInput) : Except String ManyChatConfig :=
  match i.api_key with
  | none => Except.error "validation error: api_key field required"
  | some k =>
      Except.ok
        { api_key := k
          api_version := i.api_version.getD "v1"
          base_url := i.base_url.getD "https://api.manychat.com/fb"
          timeout := i.timeout.getD 30
          max_retries := i.max_retries.getD 3
          retry_delay := i.retry_delay.getD 1
          rate_limit := i.rate_limit.getD 100
          rate_window := i.rate_window.getD 60
          log_level := i.log_level.getD "INFO"
          debug := i.debug.getD false
          webhook_secret := i.webhook_secret.getD none
          cache_ttl := i.cache_ttl.getD 300 }

/-! ## Rate-limit semaphore size (`client.py`, `__init__`)

`asyncio.Semaphore(self.config.rate_limit / 60)` — Python `/` is true
division, so the semaphore's initial value is the exact quotient
`rate_limit / 60`, a possibly fractional number (modelled in `ℚ`; the binary
floating-point rounding of e.g. `100/60` does not make it an integer either). -/

def rateLimitSemaphoreValue (rate_limit : Int) : ℚ :=
  (rate_limit : ℚ) / 60

/-! ## Session headers (`client.py`, `start`) -/

/-- Exact-key lookup in an association list of headers (the session-header
`dict` passed to `aiohttp.ClientSession`). -/
def headerGet (hs : List (String × String)) (k : String) : Option String :=
  (hs.find? (fun p => p.1 == k)).map Prod.snd

/-- The default-header dict built in `start()`.  `version` stands for the
package's `__version__` string (imported from the package root, not under
`src/`); the claims do not depend on its value. -/
def sessionHeaders (version : String) (api_key : String) : List (String × String) :=
  [ ("User-Agent", "ManyChat-Python-SDK/" ++ version)
  , ("Accept", "application/json")
  , ("Content-Type", "application/json")
  , ("Authorization", "Bearer " ++ api_key) ]

/-! ## Request-body serialization (`client.py` line 132, `api/_base.py`)

A pydantic request model is a record of named fields, some of which may be
`None`; `dict(exclude_none=True)` keeps exactly the fields whose value is not
`None`.  Field values are abstracted by a type parameter `V`. -/

def dictExcludeNone {V : Type} (fields : List (String × Option V)) : List (String × V) :=
  fields.filterMap (fun p => p.2.map (fun v => (p.1, v)))

/-- `BaseRequest.to_api_format` (`api/_base.py` lines 29–31): returns
`self.dict(exclude_none=True)`. -/
def to_api_format {V : Type} (fields : List (String × Option V)) : List (String × V) :=
  dictExcludeNone fields

/-- `client.py` line 132:
`json_data = request_data.dict(exclude_none=True) if request_data else None`. -/
def prepareJsonData {V : Type} (request_data : Option (List (String × Option V))) :
    Option (List (String × V)) :=
  request_data.map dictExcludeNone

/-! ## Python attribute lookup on the client (`getTags.py`, `addTagByName.py`,
`getInfo.py` versus `client.py`)

`ManyChatClient`'s class body defines exactly the methods listed below, and
`__init__` sets exactly the instance attributes listed below.  Accessing any
other attribute name on a client instance raises `AttributeError` before
anything else happens. -/

def manyChatClientClassAttrs : List String :=
  ["__init__", "__aenter__", "__aexit__", "start", "close",
   "_enforce_rate_limit", "_request"]

def manyChatClientInstanceAttrs : List String :=
  ["config", "_session", "_rate_limit_semaphore", "_last_request_time"]

def clientHasAttr (name : String) : Bool :=
  manyChatClientClassAttrs.contains name || manyChatClientInstanceAttrs.contains name

/-- Outcome of an endpoint function's `client.<name>(...)` call site: either
the attribute resolves and an HTTP exchange is attempted, or attribute lookup
fails first. -/
inductive EndpointOutcome where
  | attrError (name : String)
  | httpAttempted
deriving DecidableEq, Repr

def callClientMethod (name : String) : EndpointOutcome :=
  if clientHasAttr name then EndpointOutcome.httpAttempted
  else EndpointOutcome.attrError name

/-- `get_tags` (`getTags.py` lines 44–48) invokes `client.request(...)`;
the invoked attribute name does not depend on any argument. -/
def get_tags_clientCall : EndpointOutcome := callClientMethod "request"

/-- `add_tag_by_name` (`addTagByName.py` lines 47–53) invokes
`client.request(...)` after constructing the request model. -/
def add_tag_by_name_clientCall : EndpointOutcome := callClientMethod "request"

/-- `get_page_info` (`getInfo.py` lines 47–52) invokes `client.request(...)`. -/
def get_page_info_clientCall : EndpointOutcome := callClientMethod "request"

/-! ## The request executor (`client.py`, `_request` lines 137–188)

One attempt of `_request` after the URL and body are prepared.  Response
bodies are abstracted by a type parameter `B`; the caller-specified pydantic
response model is abstracted as a parse function `B → Option T` (`none`
models `pydantic.ValidationError` in `response_model.parse_obj`).

The session is created with `raise_for_status=True` (`start()`, line 75), so
`aiohttp` raises `ClientResponseError` — a subclass of `aiohttp.ClientError`
— for every response whose status is 400 or above, inside the awaited
`self._session.request(...)` call and hence before the body of the
`async with` ever runs.  The exchange is therefore modelled in two stages:
the outcome on the wire (`WireOutcome`), and what `aiohttp` delivers to the
`async with` body under `raise_for_status=True` (`sessionDeliver`). -/

structure HttpResponse (B : Type) where
  status : Int
  headers : List (String × String)
  body : B
deriving DecidableEq, Repr

/-- The outcome of one HTTP exchange as seen on the wire: a server reply,
a transport-level failure (connection refused, DNS failure, …), or a
timeout. -/
inductive WireOutcome (B : Type) where
  | reply (resp : HttpResponse B)
  | connectionFailure
  | timedOut
deriving DecidableEq, Repr

/-- What the awaited `self._session.request(...)` yields to the `async with`
body.  Under `raise_for_status=True` a reply with status ≥ 400 is never
delivered as a response object: it is raised as
`aiohttp.ClientResponseError` (carrying the status on the exception, though
`_request` discards it). -/
inductive AttemptResult (B : Type) where
  | ok (resp : HttpResponse B)
  | clientResponseError (status : Int)
  | clientError
  | timeout
deriving DecidableEq, Repr

/-- `aiohttp`'s delivery of a wire outcome under the session flag
`raise_for_status=True` (`client.py` line 75): a reply with status ≥ 400
becomes a raised `ClientResponseError`; only replies with status < 400 reach
the `async with` body as response objects. -/
def sessionDeliver {B : Type} (w : WireOutcome B) : AttemptResult B :=
  match w with
  | WireOutcome.reply resp =>
      if 400 ≤ resp.status then AttemptResult.clientResponseError resp.status
      else AttemptResult.ok resp
  | WireOutcome.connectionFailure => AttemptResult.clientError
  | WireOutcome.timedOut => AttemptResult.timeout

/-- The exceptions an invocation of the undecorated `_request` can raise
(after the two trailing `except` clauses have converted `aiohttp.ClientError`
and `asyncio.TimeoutError` into `ManyChatAPIError`).  `valueError` is
Python's builtin `ValueError`, raised by `int(...)` on a non-numeric string;
it is not a `ManyChat*` exception. -/
inductive PyError where
  | auth (msg : String)
  | rateLimit (retry_after : Int)
  | api (msg : String) (status : Option Int)
  | validation (msg : String)
  | valueError
deriving DecidableEq, Repr

/-- A nonempty all-digit character run read as a number, else `none`. -/
def digitsToNat : List Char → Option Nat
  | [] => none
  | cs =>
      if cs.all Char.isDigit then
        some (cs.foldl (fun a c => 10 * a + (c.toNat - 48)) 0)
      else none

/-- Python's builtin `int(s)` on a string: strips surrounding whitespace,
then an optional sign followed by a nonempty run of decimal digits; anything
else raises `ValueError` (modelled as `none`).  (Underscore digit separators
and non-ASCII digits, which CPython also accepts, do not occur in the claims
and are not modelled.) -/
def parseIntPy (s : String) : Option Int :=
  let t := (((s.data.dropWhile Char.isWhitespace).reverse.dropWhile
      Char.isWhitespace).reverse)
  match t with
  | '-' :: rest => (digitsToNat rest).map (fun n => -(n : Int))
  | '+' :: rest => (digitsToNat rest).map (fun n => (n : Int))
  | rest => (digitsToNat rest).map (fun n => (n : Int))

/-- Case-insensitive header lookup: `aiohttp` response headers are a
case-insensitive multidict, and `.get` returns the first matching value. -/
def headerGetCI (hs : List (String × String)) (k : String) : Option String :=
  (hs.find? (fun p => p.1.data.map Char.toLower == k.data.map Char.toLower)).map
    Prod.snd

/-- The body of `_request` (lines 137–188) applied to what the session
delivered:
* a raised `ClientResponseError` (`raise_for_status=True` on a status ≥ 400)
  is caught by `except aiohttp.ClientError` at line 183 and re-raised as
  `ManyChatAPIError(f"Request failed: {str(e)}")` — the status appears only
  in the message text; `status_code` stays `None` (line 185)
* any other `aiohttp.ClientError` → the same wrap (line 185)
* timeout → `ManyChatAPIError("Request timed out")` (line 188)
* a delivered response runs the classification block of lines 160–181:
  - status 401 → `ManyChatAuthError("Invalid API key")` (line 162)
  - status 429 → `retry_after = int(headers.get("Retry-After", 60))` then
    `ManyChatRateLimitError(..., retry_after)` (lines 163–168); a present but
    unparseable header would make `int` itself raise `ValueError`
  - other status ≥ 400 → `ManyChatAPIError(..., status_code=status)` (169)
  - status < 400 → `response_model.parse_obj`; `ValidationError` becomes
    `ManyChatValidationError("Failed to validate response: ...")` (175–181).
  The three status ≥ 400 branches are transcribed from the source but are
  dead code: `sessionDeliver` never delivers a response with status ≥ 400. -/
def requestOnce {B T : Type} (parse : B → Option T) (att : AttemptResult B) :
    Except PyError T :=
  match att with
  | AttemptResult.clientResponseError _ =>
      Except.error (PyError.api "Request failed" none)
  | AttemptResult.clientError => Except.error (PyError.api "Request failed" none)
  | AttemptResult.timeout => Except.error (PyError.api "Request timed out" none)
  | AttemptResult.ok resp =>
      if 400 ≤ resp.status then
        if resp.status = 401 then
          Except.error (PyError.auth "Invalid API key")
        else if resp.status = 429 then
          match headerGetCI resp.headers "Retry-After" with
          | none => Except.error (PyError.rateLimit 60)
          | some s =>
              match parseIntPy s with
              | some n => Except.error (PyError.rateLimit n)
              | none => Except.error PyError.valueError
        else
          Except.error (PyError.api "API request failed" (some resp.status))
      else
        match parse resp.body with
        | some t => Except.ok t
        | none => Except.error (PyError.validation "Failed to validate response")

/-- One full attempt of `_request` from a wire outcome: `aiohttp` delivery
under `raise_for_status=True`, then the `_request` body. -/
def attemptOutcome {B T : Type} (parse : B → Option T) (w : WireOutcome B) :
    Except PyError T :=
  requestOnce parse (sessionDeliver w)

/-- The exception tuple of the `backoff.on_exception` decorator (lines
92–101): `(aiohttp.ClientError, asyncio.TimeoutError, ManyChatRateLimitError)`.
By the time an exception escapes `_request`, `aiohttp.ClientError` and
`asyncio.TimeoutError` have already been re-raised as `ManyChatAPIError`
(lines 183–188), and `ManyChat*` exceptions subclass only `ManyChatError`
(`Exception`), so of the escaping exceptions only `ManyChatRateLimitError`
matches the tuple. -/
def isRetried : PyError → Bool
  | PyError.rateLimit _ => true
  | _ => false

/-- `max_tries=3`, hardcoded in the decorator (line 99). -/
def decoratorMaxTries : Nat := 3

/-- The decorated `_request`: run attempt `i` against the oracle of wire
outcomes; on an exception matching the decorator's tuple, retry while tries
remain.  Returns the number of attempts made and the final outcome.
(`budget = 0` cannot arise: the decorator is instantiated with
`max_tries = 3`.) -/
def backoffRun {B T : Type} (parse : B → Option T) (oracle : Nat → WireOutcome B) :
    Nat → Nat → Nat × Except PyError T
  | _, 0 => (0, Except.error (PyError.api "no attempt budget" none))
  | i, budget + 1 =>
      match attemptOutcome parse (oracle i) with
      | Except.ok t => (1, Except.ok t)
      | Except.error e =>
          if isRetried e && budget != 0 then
            let r := backoffRun parse oracle (i + 1) budget
            (r.1 + 1, r.2)
          else
            (1, Except.error e)

/-- A full call of the decorated `_request`. -/
def requestWithRetries {B T : Type} (parse : B → Option T)
    (oracle : Nat → WireOutcome B) : Nat × Except PyError T :=
  backoffRun parse oracle 0 decoratorMaxTries

/-! ## Rate limiter (`client.py`, `_enforce_rate_limit` lines 83–90)

The event-loop clock is modelled by explicit readings: `now` is the reading
at line 86 and `now2` the reading at line 90 (taken after the optional
sleep).  A trace is a list of such reading pairs, one per admission step. -/

/-- The duration passed to `asyncio.sleep`: `1.0 - elapsed` when
`elapsed < 1.0`, otherwise no sleep happens (duration `0`). -/
def rlSleep (last now : ℚ) : ℚ :=
  if now - last < 1 then 1 - (now - last) else 0

/-- Successive values of `self._last_request_time` along a trace of clock
reading pairs: each step ends by storing the second reading (line 90). -/
def rlTrace : ℚ → List (ℚ × ℚ) → List ℚ
  | _, [] => []
  | _, (_, now2) :: rest => now2 :: rlTrace now2 rest

/-- Well-formedness of a trace of clock readings for a sequential run:
the event-loop clock is monotone (the reading at line 86 is not below the
previously stored time) and `asyncio.sleep d` suspends for at least `d`
(the reading at line 90 is at least the first reading plus the sleep). -/
inductive RLValid : ℚ → List (ℚ × ℚ) → Prop where
  | nil (last : ℚ) : RLValid last []
  | cons (last now now2 : ℚ) (rest : List (ℚ × ℚ)) :
      last ≤ now →
      now + rlSleep last now ≤ now2 →
      RLValid now2 rest →
      RLValid last ((now, now2) :: rest)

/-! ## Theorems -/

/-- C2: every public endpoint function (`get_tags`, `add_tag_by_name`,
`get_page_info`) invokes the attribute `request` on the client, but
`ManyChatClient` defines only `_request` (the invoked name is a literal in
each call site, independent of the arguments), so each call fails with an
attribute lookup error before any HTTP exchange is attempted. -/
theorem endpoint_calls_fail_attribute_lookup :
    get_tags_clientCall = EndpointOutcome.attrError "request" ∧
    add_tag_by_name_clientCall = EndpointOutcome.attrError "request" ∧
    get_page_info_clientCall = EndpointOutcome.attrError "request" ∧
    clientHasAttr "request" = false ∧
    clientHasAttr "_request" = true :=
  ⟨rfl, rfl, rfl, rfl, rfl⟩

/-- C9: for every configured API key (and any package version string), the
`Authorization` header of the session created by `start()` equals exactly
the string `Bearer ` followed by the configured API key. -/
theorem authorization_header_is_bearer_key (version api_key : String) :
    headerGet (sessionHeaders version api_key) "Authorization" =
      some ("Bearer " ++ api_key) := rfl

/-- C10: for every outbound request with a body, the serialized body
(`request_data.dict(exclude_none=True)`, also `BaseRequest.to_api_format`)
contains a field exactly when the request model holds a non-`None` value for
it: fields whose value is `None` are omitted, all other fields are kept. -/
theorem request_body_contains_exactly_non_none_fields {V : Type}
    (fields : List (String × Option V)) (k : String) (v : V) :
    prepareJsonData (some fields) = some (to_api_format fields) ∧
    ((k, v) ∈ to_api_format fields ↔ (k, some v) ∈ fields) := by
  refine ⟨rfl, ?_⟩
  induction fields with
  | nil => simp [to_api_format, dictExcludeNone]
  | cons p rest ih =>
      obtain ⟨name, val⟩ := p
      cases val with
      | none =>
          simp only [to_api_format, dictExcludeNone, List.filterMap_cons,
            Option.map_none', List.mem_cons] at ih ⊢
          simp [ih]
      | some w =>
          simp only [to_api_format, dictExcludeNone, List.filterMap_cons,
            Option.map_some', List.mem_cons] at ih ⊢
          simp [ih, Prod.ext_iff]

/-- C5 counterexample: `ManyChatConfig` declares no validators, so
construction succeeds with an empty API key, a negative timeout, a zero
retry count and a negative rate limit — the claim that construction fails
on such inputs is false on the code. -/
theorem config_accepts_empty_key_and_nonpositive_values :
    mkManyChatConfig
        { api_key := some "", timeout := some (-1), max_retries := some 0,
          rate_limit := some (-5) } =
      Except.ok
        { api_key := "", api_version := "v1",
          base_url := "https://api.manychat.com/fb", timeout := -1,
          max_retries := 0, retry_delay := 1, rate_limit := -5,
          rate_window := 60, log_level := "INFO", debug := false,
          webhook_secret := none, cache_ttl := 300 } := rfl

/-- C5 amended: configuration construction fails exactly when the required
`api_key` field is missing; no emptiness or positivity validation is
performed on any field. -/
theorem config_construction_fails_only_on_missing_api_key
    (i : ManyChatConfigInput) :
    (∃ c, mkManyChatConfig i = Except.ok c) ↔ i.api_key.isSome := by
  cases h : i.api_key <;> simp [mkManyChatConfig, h]

/-- C6 counterexample: at the default `rate_limit = 100` the semaphore is
created with value `100 / 60 = 5/3`, which is not
`ceil(rate_limit / 60) = 2` (nor an integer at all). -/
theorem semaphore_value_not_ceil_at_default_rate_limit :
    rateLimitSemaphoreValue 100 ≠ ((⌈(100 : ℚ) / 60⌉ : ℤ) : ℚ) := by
  have h : ⌈(100 : ℚ) / 60⌉ = 2 := by
    rw [Int.ceil_eq_iff]
    norm_num
  rw [h]
  norm_num [rateLimitSemaphoreValue]

/-- C6 amended: the admission gate is created with exactly
`rate_limit / 60` permits under true division — a possibly fractional
value, which coincides with `ceil(rate_limit / 60)` precisely when `60`
divides the configured per-minute limit. -/
theorem semaphore_value_eq_ceil_iff_divisible (r : ℤ) :
    rateLimitSemaphoreValue r = ((⌈(r : ℚ) / 60⌉ : ℤ) : ℚ) ↔ (60 : ℤ) ∣ r := by
  unfold rateLimitSemaphoreValue
  constructor
  · intro h
    refine ⟨⌈(r : ℚ) / 60⌉, ?_⟩
    have h60 : ((r : ℚ)) = 60 * ((⌈(r : ℚ) / 60⌉ : ℤ) : ℚ) := by
      field_simp at h
      linarith
    exact_mod_cast h60
  · rintro ⟨m, rfl⟩
    have e : (((60 * m : ℤ) : ℚ)) / 60 = (m : ℚ) := by
      push_cast
      field_simp
    rw [e, Int.ceil_intCast]

/-- C1 counterexample: with a server that returns HTTP 500 on every attempt,
the decorated `_request` makes exactly one attempt — not `max_retries = 3` —
and what it raises is the generic `ManyChatAPIError("Request failed: ...")`
with `status_code=None` produced by the `raise_for_status=True` wrap at
lines 183–185, never `ManyChatServerError`. -/
theorem status_500_single_attempt_not_max_retries :
    (requestWithRetries (fun _ => (none : Option Unit))
        (fun _ => WireOutcome.reply ⟨500, [], ()⟩)).1 = 1 ∧
    (requestWithRetries (fun _ => (none : Option Unit))
        (fun _ => WireOutcome.reply ⟨500, [], ()⟩)).1 ≠ 3 ∧
    (requestWithRetries (fun _ => (none : Option Unit))
        (fun _ => WireOutcome.reply ⟨500, [], ()⟩)).2 =
      Except.error (PyError.api "Request failed" none) :=
  ⟨rfl, by decide, rfl⟩

/-- C1 amended: when the server returns HTTP 500 on every attempt, exactly
one attempt is made and a generic `ManyChatAPIError` with no status code is
raised: `raise_for_status=True` turns every status ≥ 400 reply into
`aiohttp.ClientResponseError` before the status-classification block of
`_request` runs, the `except` clause at lines 183–185 re-raises it as
`ManyChatAPIError("Request failed: ...")` with `status_code=None`, and that
exception is not in the backoff decorator's retried tuple; the decorator's
try ceiling is the hardcoded `max_tries = 3`, not the configuration's
`max_retries`, `ManyChatServerError` is never raised, and no backoff delays
occur at all. -/
theorem status_500_always_yields_one_attempt_api_error {B T : Type}
    (parse : B → Option T) (oracle : Nat → WireOutcome B)
    (resp : Nat → HttpResponse B)
    (hok : ∀ i, oracle i = WireOutcome.reply (resp i))
    (hst : ∀ i, (resp i).status = 500) :
    requestWithRetries parse oracle =
      (1, Except.error (PyError.api "Request failed" none)) := by
  have h0 := hok 0
  have h5 := hst 0
  simp [requestWithRetries, decoratorMaxTries, backoffRun, attemptOutcome,
    sessionDeliver, requestOnce, h0, h5, isRetried]

/-- Witness for C1 amended at a concrete always-500 oracle. -/
theorem status_500_always_yields_one_attempt_api_error_witness :
    requestWithRetries (fun _ => (none : Option Unit))
        (fun _ => WireOutcome.reply ⟨500, [("X", "y")], ()⟩) =
      (1, Except.error (PyError.api "Request failed" none)) :=
  status_500_always_yields_one_attempt_api_error _ _
    (fun _ => ⟨500, [("X", "y")], ()⟩) (fun _ => rfl) (fun _ => rfl)

/-- C3 (code bug): the claim matches `_request`'s own docstring ("Raises
ManyChatAuthError: For authentication failures") and the explicit branch at
line 162, but `raise_for_status=True` (line 75) makes a 401 reply surface as
`aiohttp.ClientResponseError`, wrapped at lines 183–185 into the generic
`ManyChatAPIError("Request failed: ...")` with `status_code=None`.  Exactly
one attempt is made, but no Auth error is raised — indeed no attempt can
ever produce `ManyChatAuthError`. -/
theorem status_401_yields_generic_api_error_not_auth :
    requestWithRetries (fun _ => (none : Option Unit))
        (fun _ => WireOutcome.reply ⟨401, [], ()⟩) =
      (1, Except.error (PyError.api "Request failed" none)) ∧
    ∀ (parse : Unit → Option Unit) (w : WireOutcome Unit) (m : String),
      attemptOutcome parse w ≠ Except.error (PyError.auth m) := by
  refine ⟨rfl, fun parse w m => ?_⟩
  cases w with
  | reply resp =>
      by_cases h : (400 : Int) ≤ resp.status
      · simp [attemptOutcome, sessionDeliver, requestOnce, h]
      · cases hp : parse resp.body <;>
          simp [attemptOutcome, sessionDeliver, requestOnce, h, hp]
  | connectionFailure => simp [attemptOutcome, sessionDeliver, requestOnce]
  | timedOut => simp [attemptOutcome, sessionDeliver, requestOnce]

/-- C4 counterexample: a 429 reply carrying `Retry-After: 45` does not
surface a rate-limit error with `retry_after = 45` (nor any rate-limit
error): `raise_for_status=True` raises `ClientResponseError` before the
`Retry-After` parsing at lines 163–168 can run, and the attempt yields the
generic `ManyChatAPIError("Request failed: ...")` with no status and no
retry-after. -/
theorem status_429_no_rate_limit_error_counterexample :
    attemptOutcome (fun _ => (none : Option Unit))
        (WireOutcome.reply ⟨429, [("Retry-After", "45")], ()⟩) =
      Except.error (PyError.api "Request failed" none) ∧
    PyError.api "Request failed" none ≠ PyError.rateLimit 45 ∧
    PyError.api "Request failed" none ≠ PyError.rateLimit 60 :=
  ⟨rfl, by decide, by decide⟩

/-- C4 amended: for every HTTP response with status 429, no rate-limit
error is surfaced at all: the session's `raise_for_status=True` raises
`aiohttp.ClientResponseError`, which `_request`'s `except` clause wraps into
a generic `ManyChatAPIError` with no status code and no retry-after value
(the `Retry-After` parsing at lines 163–168 is dead code), and since
`ManyChatRateLimitError` is never raised the backoff decorator never retries
a 429: exactly one attempt is made. -/
theorem status_429_wrapped_generic_api_error {B T : Type}
    (parse : B → Option T) (oracle : Nat → WireOutcome B)
    (resp : HttpResponse B)
    (hok : oracle 0 = WireOutcome.reply resp)
    (hst : resp.status = 429) :
    attemptOutcome parse (oracle 0) =
      Except.error (PyError.api "Request failed" none) ∧
    (∀ n : Int, attemptOutcome parse (oracle 0) ≠
      Except.error (PyError.rateLimit n)) ∧
    requestWithRetries parse oracle =
      (1, Except.error (PyError.api "Request failed" none)) := by
  have h1 : attemptOutcome parse (oracle 0) =
      Except.error (PyError.api "Request failed" none) := by
    simp [attemptOutcome, sessionDeliver, requestOnce, hok, hst]
  refine ⟨h1, fun n => ?_, ?_⟩
  · rw [h1]
    simp
  · simp [requestWithRetries, decoratorMaxTries, backoffRun, h1, isRetried]

/-- Witness for C4 amended at a concrete 429 reply with a `Retry-After`
header. -/
theorem status_429_wrapped_generic_api_error_witness :
    attemptOutcome (fun _ => (none : Option Unit))
        (WireOutcome.reply ⟨429, [("Retry-After", "45")], ()⟩) =
      Except.error (PyError.api "Request failed" none) ∧
    (∀ n : Int, attemptOutcome (fun _ => (none : Option Unit))
        (WireOutcome.reply ⟨429, [("Retry-After", "45")], ()⟩) ≠
      Except.error (PyError.rateLimit n)) ∧
    requestWithRetries (fun _ => (none : Option Unit))
        (fun _ => WireOutcome.reply ⟨429, [("Retry-After", "45")], ()⟩) =
      (1, Except.error (PyError.api "Request failed" none)) :=
  status_429_wrapped_generic_api_error (fun _ => (none : Option Unit))
    (fun _ => WireOutcome.reply ⟨429, [("Retry-After", "45")], ()⟩)
    ⟨429, [("Retry-After", "45")], ()⟩ rfl rfl

/-- C8: for every success-status response (status < 400) whose body fails to
parse into the caller-specified response shape, the executor raises
`ManyChatValidationError` on the single attempt made (validation errors are
not retried), and never returns a success result. -/
theorem unparseable_success_body_yields_validation_error {B T : Type}
    (parse : B → Option T) (oracle : Nat → WireOutcome B)
    (resp : HttpResponse B)
    (hok : oracle 0 = WireOutcome.reply resp)
    (hst : resp.status < 400)
    (hbody : parse resp.body = none) :
    requestWithRetries parse oracle =
      (1, Except.error (PyError.validation "Failed to validate response")) ∧
    ∀ t, (requestWithRetries parse oracle).2 ≠ Except.ok t := by
  have hlt : ¬ (400 ≤ resp.status) := by omega
  constructor
  · simp [requestWithRetries, decoratorMaxTries, backoffRun, attemptOutcome,
      sessionDeliver, requestOnce, hok, hlt, hbody, isRetried]
  · intro t
    simp [requestWithRetries, decoratorMaxTries, backoffRun, attemptOutcome,
      sessionDeliver, requestOnce, hok, hlt, hbody, isRetried]

/-- Witness for C8 at a concrete 200 response with an unparseable body. -/
theorem unparseable_success_body_yields_validation_error_witness :
    requestWithRetries (fun _ => (none : Option Unit))
        (fun _ => WireOutcome.reply ⟨200, [], ()⟩) =
      (1, Except.error (PyError.validation "Failed to validate response")) ∧
    ∀ t, (requestWithRetries (fun _ => (none : Option Unit))
        (fun _ => WireOutcome.reply ⟨200, [], ()⟩)).2 ≠ Except.ok t :=
  unparseable_success_body_yields_validation_error _ _ ⟨200, [], ()⟩ rfl
    (by norm_num) rfl

/-- Helper: along any well-formed trace, each stored last-request time
exceeds its predecessor by at least one second. -/
theorem rl_chain_one_second (last0 : ℚ) (tr : List (ℚ × ℚ))
    (h : RLValid last0 tr) :
    List.Chain' (fun a b => a + 1 ≤ b) (last0 :: rlTrace last0 tr) := by
  induction h with
  | nil last => simp [rlTrace]
  | cons last now now2 rest h1 h2 _h3 ih =>
      rw [rlTrace]
      refine List.chain'_cons.mpr ⟨?_, ih⟩
      by_cases hc : now - last < 1
      · have hs : rlSleep last now = 1 - (now - last) := if_pos hc
        rw [hs] at h2
        linarith
      · have hs : rlSleep last now = 0 := if_neg hc
        rw [hs] at h2
        push_neg at hc
        linarith

/-- C7: along every sequence of admission steps of `_enforce_rate_limit` on
one client instance (with a monotone event-loop clock and `asyncio.sleep d`
suspending at least `d`): each step sleeps exactly `1.0 - elapsed` whenever
the elapsed time since the last dispatch is below one second, consecutive
recorded dispatch timestamps are at least one second apart, and the recorded
last-request time is monotonically non-decreasing. -/
theorem rate_limiter_spacing_and_monotonicity (last0 : ℚ)
    (tr : List (ℚ × ℚ)) (h : RLValid last0 tr) :
    (∀ last now : ℚ, now - last < 1 → rlSleep last now = 1 - (now - last)) ∧
    List.Chain' (fun a b => a + 1 ≤ b) (last0 :: rlTrace last0 tr) ∧
    List.Chain' (fun a b => a ≤ b) (last0 :: rlTrace last0 tr) := by
  refine ⟨fun last now hc => if_pos hc, rl_chain_one_second last0 tr h, ?_⟩
  exact (rl_chain_one_second last0 tr h).imp (fun a b hab => by linarith)

/-- Witness for C7 on a concrete two-step trace. -/
theorem rate_limiter_spacing_and_monotonicity_witness :
    (∀ last now : ℚ, now - last < 1 → rlSleep last now = 1 - (now - last)) ∧
    List.Chain' (fun a b : ℚ => a + 1 ≤ b)
      (0 :: rlTrace 0 [(1/2, 3/2), (2, 3)]) ∧
    List.Chain' (fun a b : ℚ => a ≤ b)
      (0 :: rlTrace 0 [(1/2, 3/2), (2, 3)]) :=
  rate_limiter_spacing_and_monotonicity 0 [(1/2, 3/2), (2, 3)]
    (RLValid.cons 0 (1/2) (3/2) _ (by norm_num)
      (by rw [rlSleep]; norm_num)
      (RLValid.cons (3/2) 2 3 _ (by norm_num)
        (by rw [rlSleep]; norm_num)
        (RLValid.nil 3)))

end ManyChat
